import Mathlib

/-!
Shallow embedding of the core of `vault-plugin-tailscale` (`backend/backend.go`):
the configuration record, the Vault field-data access semantics, and the three
operation handlers `GenerateKey`, `ReadConfiguration` and `UpdateConfiguration`.

Modelling conventions:
- The durable storage of Vault is a key/value association list from storage paths to
  decoded configuration records; JSON serialization (`logical.StorageEntryJSON`
  / `StorageEntry.DecodeJSON`) is assumed faithful, so entries hold `Config`
  values directly.  `Storage.Get` on a missing key returns `none` with no
  error, exactly as the `logical.Storage` interface of Vault does.
- `framework.FieldData.Get` returns the raw request value when present,
  otherwise the schema default when one is declared, otherwise the zero value
  of the field type.  Request inputs are therefore records of `Option` fields.
- The upstream tailscale client and its URL parsing are external collaborators:
  they are abstracted into an `Env` of oracles (`urlOk` deciding whether
  `WithBaseURL` accepts the endpoint string, `createKey` producing the
  upstream response), and the handlers are parameterised by that environment.
- Go errors are modelled by an inductive carrying the distinct error sites,
  with `message` giving the exact Go error strings.
- A nil-pointer dereference (calling `DecodeJSON` on a nil `*StorageEntry`)
  is a Go runtime panic, modelled by the `crash` outcome.
-/

namespace Tailscale

/-- The `Config` type of `backend/backend.go` (fields in source order). -/
structure Config where
  Tailnet : String
  APIKey : String
  APIUrl : String
  OAuthClientID : String
  OAuthClientSecret : String
  OAuthScopes : List String
deriving DecidableEq, Repr

/-- The fixed storage key `configPath = "config"`. -/
def configPath : String := "config"

/-- Durable storage: an association list from storage paths to decoded
configuration entries. -/
abbrev Storage := List (String × Config)

/-- `request.Storage.Get`: the entry stored under `k`, `none` when absent. -/
def Storage.get (s : Storage) (k : String) : Option Config :=
  (s.find? (fun e => e.1 = k)).map (fun e => e.2)

/-- `request.Storage.Put` of an entry under key `k`: replaces any previous
entry under `k`, leaving every other key untouched. -/
def Storage.put (s : Storage) (k : String) (c : Config) : Storage :=
  (k, c) :: s.filter (fun e => ¬ e.1 = k)

/-- The distinct error results of the backend; `message` below gives
the literal Go error text where the backend itself constructs the error. -/
inductive BackendError where
  /-- `errors.New("provided tailnet cannot be empty")` -/
  | emptyTailnet
  /-- `errors.New("one of api_key or oauth_client_id cannot be empty")` -/
  | missingCredential
  /-- `errors.New("provided api_url cannot be empty")` -/
  | emptyApiUrl
  /-- `errors.New("configuration has not been set")` -/
  | notConfigured
  /-- an error returned by `tailscale.NewClient` (malformed base URL) -/
  | clientError (msg : String)
  /-- an error returned by `client.CreateKey`, propagated verbatim -/
  | upstream (msg : String)
deriving DecidableEq, Repr

/-- The Go error strings for the errors the backend constructs itself. -/
def BackendError.message : BackendError → String
  | .emptyTailnet => "provided tailnet cannot be empty"
  | .missingCredential => "one of api_key or oauth_client_id cannot be empty"
  | .emptyApiUrl => "provided api_url cannot be empty"
  | .notConfigured => "configuration has not been set"
  | .clientError m => m
  | .upstream m => m

/-- Outcome of one handler invocation: a normal value, a returned error, or a
Go runtime panic (crash of the handler). -/
inductive Outcome (α : Type) where
  | crash : Outcome α
  | err : BackendError → Outcome α
  | ok : α → Outcome α
deriving DecidableEq, Repr

/-- `Outcome.isErr`: the invocation returned an error value (not a crash). -/
def Outcome.isErr {α : Type} : Outcome α → Bool
  | .err _ => true
  | _ => false

/-! ## The upstream tailscale client (external collaborator) -/

/-- Which authentication material `tailscale.NewClient` was given. -/
inductive ClientAuth where
  /-- `tailscale.NewClient(c.APIKey, ...)` with a bearer API key -/
  | apiKey (key : String)
  /-- `tailscale.WithOAuthClientCredentials(id, secret, scopes)` -/
  | oauthCredentials (clientID : String) (clientSecret : String)
      (scopes : List String)
deriving DecidableEq, Repr

/-- The upstream client value produced by `tailscale.NewClient`. -/
structure Client where
  tailnet : String
  baseURL : String
  auth : ClientAuth
deriving DecidableEq, Repr

/-- `tailscale.KeyCapabilities.Devices.Create`; the Go zero value has every
field at its default (`false` / empty). -/
structure DevicesCreate where
  Reusable : Bool := false
  Ephemeral : Bool := false
  Preauthorized : Bool := false
  Tags : List String := []
deriving DecidableEq, Repr

/-- `tailscale.KeyCapabilities.Devices`. -/
structure Devices where
  Create : DevicesCreate := {}
deriving DecidableEq, Repr

/-- `tailscale.KeyCapabilities`. -/
structure KeyCapabilities where
  Devices : Devices := {}
deriving DecidableEq, Repr

/-- `tailscale.Key`: the upstream response to `CreateKey`.  `Expires` models
`time.Time` as an abstract tick count whose zero value is the Go zero time. -/
structure Key where
  ID : String := ""
  Key : String := ""
  Expires : Nat := 0
  Capabilities : KeyCapabilities := {}
deriving DecidableEq, Repr

/-- The external collaborators `GenerateKey` depends on: whether
`url.Parse` inside `tailscale.WithBaseURL` accepts the endpoint string, and
what the upstream `CreateKey` call returns. -/
structure Env where
  urlOk : String → Bool
  createKey : Client → KeyCapabilities → Except String Key

/-- `Config.Client` (backend.go lines 32-41): prefer API-key authentication
when `APIKey` is non-empty, otherwise the OAuth client-credential flow.  Both
branches pass `WithBaseURL(c.APIUrl)`, whose URL parse is the only failure
source of `tailscale.NewClient`. -/
def Config.Client (c : Config) (env : Env) : Except BackendError Client :=
  if c.APIKey ≠ "" then
    if env.urlOk c.APIUrl then
      .ok { tailnet := c.Tailnet, baseURL := c.APIUrl, auth := .apiKey c.APIKey }
    else
      .error (.clientError c.APIUrl)
  else
    if env.urlOk c.APIUrl then
      .ok { tailnet := c.Tailnet, baseURL := c.APIUrl,
            auth := .oauthCredentials c.OAuthClientID c.OAuthClientSecret c.OAuthScopes }
    else
      .error (.clientError c.APIUrl)

/-! ## Request field data -/

/-- Raw request fields for the `config` path; `none` means the caller omitted
the field.  `framework.FieldData.Get` semantics are applied by
`UpdateConfiguration` below: string fields default to `""`, string-slice
fields to `[]`, and `api_url` to its declared schema default. -/
structure ConfigFields where
  tailnet : Option String := none
  api_key : Option String := none
  api_url : Option String := none
  oauth_client_id : Option String := none
  oauth_client_secret : Option String := none
  oauth_scopes : Option (List String) := none
deriving DecidableEq, Repr

/-- The declared schema default of the `api_url` field. -/
def apiUrlDefault : String := "https://api.tailscale.com"

/-- Raw request fields for the `key` path. -/
structure KeyFields where
  tags : Option (List String) := none
  preauthorized : Option Bool := none
  ephemeral : Option Bool := none
deriving DecidableEq, Repr

/-! ## The three handlers -/

/-- The `logical.Response` data of `ReadConfiguration` (backend.go lines
189-198): the six configuration fields, credentials returned verbatim. -/
structure ConfigResponse where
  tailnet : String
  api_key : String
  api_url : String
  oauth_client_id : String
  oauth_client_secret : String
  oauth_scopes : List String
deriving DecidableEq, Repr

/-- The `logical.Response` data of `GenerateKey` (backend.go lines 161-171). -/
structure KeyResponse where
  id : String
  key : String
  expires : Nat
  tags : List String
  reusable : Bool
  ephemeral : Bool
  preauthorized : Bool
deriving DecidableEq, Repr

/-- The capability set `GenerateKey` builds from the request (backend.go lines
151-154): `var capabilities tailscale.KeyCapabilities` (zero value) followed by
assignments of `Tags`, `Preauthorized` and `Ephemeral`; `Reusable` is never
assigned. -/
def requestCapabilities (data : KeyFields) : KeyCapabilities :=
  { Devices := { Create := { (({} : KeyCapabilities).Devices.Create) with
      Tags := data.tags.getD []
      Preauthorized := data.preauthorized.getD false
      Ephemeral := data.ephemeral.getD false } } }

/-- `GenerateKey` (backend.go lines 135-172).  `Storage.Get` on a missing
entry yields a nil pointer and no error; the subsequent
`entry.DecodeJSON(&config)` dereferences that nil pointer, a runtime panic. -/
def GenerateKey (env : Env) (storage : Storage) (data : KeyFields) :
    Outcome KeyResponse × Storage :=
  match Storage.get storage configPath with
  | none => (.crash, storage)
  | some config =>
    match config.Client env with
    | .error e => (.err e, storage)
    | .ok client =>
      match env.createKey client (requestCapabilities data) with
      | .error e => (.err (.upstream e), storage)
      | .ok key =>
        (.ok { id := key.ID
               key := key.Key
               expires := key.Expires
               tags := key.Capabilities.Devices.Create.Tags
               reusable := key.Capabilities.Devices.Create.Reusable
               ephemeral := key.Capabilities.Devices.Create.Ephemeral
               preauthorized := key.Capabilities.Devices.Create.Preauthorized },
         storage)

/-- `ReadConfiguration` (backend.go lines 175-199). -/
def ReadConfiguration (storage : Storage) : Outcome ConfigResponse × Storage :=
  match Storage.get storage configPath with
  | none => (.err .notConfigured, storage)
  | some config =>
    (.ok { tailnet := config.Tailnet
           api_key := config.APIKey
           api_url := config.APIUrl
           oauth_client_id := config.OAuthClientID
           oauth_client_secret := config.OAuthClientSecret
           oauth_scopes := config.OAuthScopes },
     storage)

/-- The configuration record `UpdateConfiguration` assembles from the request
via `data.Get` (backend.go lines 203-210). -/
def requestConfig (data : ConfigFields) : Config :=
  { Tailnet := data.tailnet.getD ""
    APIKey := data.api_key.getD ""
    APIUrl := data.api_url.getD apiUrlDefault
    OAuthScopes := data.oauth_scopes.getD []
    OAuthClientSecret := data.oauth_client_secret.getD ""
    OAuthClientID := data.oauth_client_id.getD "" }

/-- `UpdateConfiguration` (backend.go lines 202-231). -/
def UpdateConfiguration (storage : Storage) (data : ConfigFields) :
    Outcome Unit × Storage :=
  if (requestConfig data).Tailnet = "" then
    (.err .emptyTailnet, storage)
  else if (requestConfig data).APIKey = "" ∧ (requestConfig data).OAuthClientID = "" then
    (.err .missingCredential, storage)
  else if (requestConfig data).APIUrl = "" then
    (.err .emptyApiUrl, storage)
  else
    (.ok (), Storage.put storage configPath (requestConfig data))

/-! ## Helper lemmas shared by the claim theorems -/

/-- Reading back the key just written returns the written entry. -/
theorem Storage.get_put (s : Storage) (k : String) (c : Config) :
    Storage.get (Storage.put s k c) k = some c := by
  simp [Storage.get, Storage.put, List.find?_cons]

/-- `GenerateKey` never modifies storage, whatever happens. -/
theorem generateKey_snd (env : Env) (s : Storage) (d : KeyFields) :
    (GenerateKey env s d).2 = s := by
  unfold GenerateKey
  split
  · rfl
  · split
    · rfl
    · split <;> rfl

/-- `ReadConfiguration` never modifies storage. -/
theorem readConfiguration_snd (s : Storage) :
    (ReadConfiguration s).2 = s := by
  unfold ReadConfiguration
  split <;> rfl

/-- The result of `UpdateConfiguration`, spelled out: the three ordered
validation checks over the defaulted field values. -/
theorem updateConfiguration_fst (s : Storage) (d : ConfigFields) :
    (UpdateConfiguration s d).1 =
      if (requestConfig d).Tailnet = "" then Outcome.err .emptyTailnet
      else if (requestConfig d).APIKey = "" ∧ (requestConfig d).OAuthClientID = "" then
        Outcome.err .missingCredential
      else if (requestConfig d).APIUrl = "" then Outcome.err .emptyApiUrl
      else Outcome.ok () := by
  unfold UpdateConfiguration
  split_ifs <;> rfl

/-- The storage left behind by `UpdateConfiguration`: the single put under the
fixed key when all three checks pass, the input storage untouched otherwise. -/
theorem updateConfiguration_snd (s : Storage) (d : ConfigFields) :
    (UpdateConfiguration s d).2 =
      if (requestConfig d).Tailnet = "" then s
      else if (requestConfig d).APIKey = "" ∧ (requestConfig d).OAuthClientID = "" then s
      else if (requestConfig d).APIUrl = "" then s
      else Storage.put s configPath (requestConfig d) := by
  unfold UpdateConfiguration
  split_ifs <;> rfl

/-- After a successful update, the fixed key holds the assembled record. -/
theorem updateConfiguration_get_of_ok (s : Storage) (d : ConfigFields)
    (h : (UpdateConfiguration s d).1 = Outcome.ok ()) :
    Storage.get (UpdateConfiguration s d).2 configPath = some (requestConfig d) := by
  rw [updateConfiguration_fst] at h
  rw [updateConfiguration_snd]
  split_ifs at h ⊢ <;> try simp at h
  exact Storage.get_put s configPath (requestConfig d)

/-! ## Concrete scenario instances (used by closed theorems and witnesses) -/

/-- The stored configuration of the spec scenarios: tailnet `example.com`,
API key `1234`, default endpoint. -/
def scenarioConfig : Config :=
  { Tailnet := "example.com", APIKey := "1234", APIUrl := apiUrlDefault,
    OAuthClientID := "", OAuthClientSecret := "", OAuthScopes := [] }

/-- The upstream response of the spec scenario: only `id` and `key` set. -/
def scenarioKey : Key := { ID := "12345", Key := "test" }

/-- An environment whose upstream always accepts the base URL and returns
`scenarioKey` for every capability set. -/
def scenarioEnv : Env :=
  { urlOk := fun _ => true, createKey := fun _ _ => .ok scenarioKey }

/-- The client `scenarioConfig.Client` constructs in `scenarioEnv`. -/
def scenarioClient : Client :=
  { tailnet := "example.com", baseURL := apiUrlDefault, auth := .apiKey "1234" }

/-- The config-write request of the spec scenario:
`{tailnet:"example.com", api_key:"1234"}`, everything else omitted. -/
def exampleFields : ConfigFields :=
  { tailnet := some "example.com", api_key := some "1234" }

/-- A config-write request with only an OAuth client id as credential, no
client secret, no scopes, and a malformed (but non-empty) endpoint string. -/
def oauthOnlyFields : ConfigFields :=
  { tailnet := some "example.com", oauth_client_id := some "client-id",
    api_url := some "::not a url::" }

/-! ## Claim theorems -/

/-- Claim C1 (code bug in `GenerateKey`, backend.go lines 136-144): on a
storage state with no `config` entry, `Storage.Get` returns a nil entry with
no error, and `GenerateKey` calls `entry.DecodeJSON` on that nil pointer
without the nil check that `ReadConfiguration` performs.  The handler
therefore crashes with a runtime panic instead of returning the
not-configured error the spec (and the function doc comment) promise. -/
theorem generateKey_unconfigured_crashes :
    GenerateKey scenarioEnv [] {} = (Outcome.crash, []) ∧
    (GenerateKey scenarioEnv [] {}).1 ≠ Outcome.err .notConfigured :=
  ⟨rfl, by decide⟩

/-- Claim C2: `UpdateConfiguration` returns a validation error exactly when
tailnet is empty, or both credentials are empty, or the defaulted api_url is
empty; the three checks are applied in that order, the first failing one
naming the error, and the credential error is the missing-credential error. -/
theorem updateConfiguration_validation_order (s : Storage) (d : ConfigFields) :
    (UpdateConfiguration s d).1 =
      if d.tailnet.getD "" = "" then Outcome.err .emptyTailnet
      else if d.api_key.getD "" = "" ∧ d.oauth_client_id.getD "" = "" then
        Outcome.err .missingCredential
      else if d.api_url.getD apiUrlDefault = "" then Outcome.err .emptyApiUrl
      else Outcome.ok () :=
  updateConfiguration_fst s d

/-- Claim C3: the only storage write any handler performs is the single put
of the validated record under the fixed key by a successful
`UpdateConfiguration`; `GenerateKey` and `ReadConfiguration` leave storage
untouched, and whenever `UpdateConfiguration` returns an error the storage is
exactly what it was before the call. -/
theorem storage_writes_confined (env : Env) (s : Storage) (kd : KeyFields)
    (cd : ConfigFields) :
    (GenerateKey env s kd).2 = s ∧
    (ReadConfiguration s).2 = s ∧
    ((UpdateConfiguration s cd).1.isErr = true → (UpdateConfiguration s cd).2 = s) ∧
    ((UpdateConfiguration s cd).1 = Outcome.ok () →
      (UpdateConfiguration s cd).2 = Storage.put s configPath (requestConfig cd)) := by
  refine ⟨generateKey_snd env s kd, readConfiguration_snd s, ?_, ?_⟩ <;>
    · intro h
      rw [updateConfiguration_fst] at h
      rw [updateConfiguration_snd]
      split_ifs at h ⊢ <;> simp_all [Outcome.isErr]

/-- Witness for C3: a valid write stores under the fixed key; an invalid
write (all fields omitted) leaves the empty storage empty. -/
theorem storage_writes_confined_witness :
    (UpdateConfiguration [] exampleFields).2 =
      Storage.put [] configPath (requestConfig exampleFields) ∧
    (UpdateConfiguration [] ({} : ConfigFields)).2 = [] :=
  ⟨(storage_writes_confined scenarioEnv [] {} exampleFields).2.2.2 (by decide),
   (storage_writes_confined scenarioEnv [] {} ({} : ConfigFields)).2.2.1 (by decide)⟩

/-- Claim C4: after a successful `UpdateConfiguration`, `ReadConfiguration`
returns the written record in all six fields, credentials verbatim and
`api_url` defaulted when the write omitted it. -/
theorem update_read_roundtrip (s : Storage) (d : ConfigFields)
    (h : (UpdateConfiguration s d).1 = Outcome.ok ()) :
    (ReadConfiguration (UpdateConfiguration s d).2).1 =
      Outcome.ok { tailnet := d.tailnet.getD ""
                   api_key := d.api_key.getD ""
                   api_url := d.api_url.getD apiUrlDefault
                   oauth_client_id := d.oauth_client_id.getD ""
                   oauth_client_secret := d.oauth_client_secret.getD ""
                   oauth_scopes := d.oauth_scopes.getD [] } := by
  rw [updateConfiguration_fst] at h
  rw [updateConfiguration_snd]
  split_ifs at h ⊢ <;> try simp at h
  unfold ReadConfiguration
  rw [Storage.get_put]
  rfl

/-- Witness for C4: the spec scenario
`Update({tailnet:"example.com", api_key:"1234"})` then `Read()`. -/
theorem update_read_roundtrip_witness :
    (ReadConfiguration (UpdateConfiguration [] exampleFields).2).1 =
      Outcome.ok { tailnet := "example.com", api_key := "1234",
                   api_url := "https://api.tailscale.com", oauth_client_id := "",
                   oauth_client_secret := "", oauth_scopes := [] } :=
  update_read_roundtrip [] exampleFields (by decide)

/-- Claim C5: a configuration write that omits `api_url` (other fields valid)
succeeds and stores a record whose `api_url` is the documented default
`https://api.tailscale.com`. -/
theorem update_omitted_api_url_defaults (s : Storage) (d : ConfigFields)
    (hurl : d.api_url = none)
    (ht : ¬ d.tailnet.getD "" = "")
    (hcred : ¬ (d.api_key.getD "" = "" ∧ d.oauth_client_id.getD "" = "")) :
    (UpdateConfiguration s d).1 = Outcome.ok () ∧
    Storage.get (UpdateConfiguration s d).2 configPath = some (requestConfig d) ∧
    (requestConfig d).APIUrl = "https://api.tailscale.com" := by
  have hu : (requestConfig d).APIUrl = apiUrlDefault := by
    simp [requestConfig, hurl]
  have hok : (UpdateConfiguration s d).1 = Outcome.ok () := by
    rw [updateConfiguration_fst]
    simp only [requestConfig]
    rw [if_neg ht, if_neg hcred]
    simp [hurl, apiUrlDefault]
  exact ⟨hok, updateConfiguration_get_of_ok s d hok, hu⟩

/-- Witness for C5: the spec scenario write with `api_url` omitted. -/
theorem update_omitted_api_url_defaults_witness :
    (UpdateConfiguration [] exampleFields).1 = Outcome.ok () ∧
    Storage.get (UpdateConfiguration [] exampleFields).2 configPath =
      some (requestConfig exampleFields) ∧
    (requestConfig exampleFields).APIUrl = "https://api.tailscale.com" :=
  update_omitted_api_url_defaults [] exampleFields rfl (by decide) (by decide)

/-- Claim C6: the capability set `GenerateKey` sends upstream (backend.go
lines 151-154) copies `tags`, `preauthorized` and `ephemeral` verbatim from
the request, and never sets `Reusable`, which stays at its zero-value default:
no input can request a reusable key. -/
theorem generateKey_capability_mapping (d : KeyFields) :
    requestCapabilities d =
      { Devices := { Create := { Tags := d.tags.getD []
                                 Preauthorized := d.preauthorized.getD false
                                 Ephemeral := d.ephemeral.getD false
                                 Reusable := false } } } ∧
    (requestCapabilities d).Devices.Create.Reusable = false :=
  ⟨rfl, rfl⟩

/-- Claim C7: on a successful upstream call, `GenerateKey` copies `id`, the
raw secret and expiry from the upstream result, and takes the capability
flags from the upstream response echo, not from the request: whatever the
caller asked for, the response fields come from the upstream key `k`. -/
theorem generateKey_response_from_upstream (env : Env) (s : Storage)
    (d : KeyFields) (cfg : Config) (client : Client) (k : Key)
    (hs : Storage.get s configPath = some cfg)
    (hc : cfg.Client env = Except.ok client)
    (hk : ∀ cl caps, env.createKey cl caps = Except.ok k) :
    (GenerateKey env s d).1 =
      Outcome.ok { id := k.ID
                   key := k.Key
                   expires := k.Expires
                   tags := k.Capabilities.Devices.Create.Tags
                   reusable := k.Capabilities.Devices.Create.Reusable
                   ephemeral := k.Capabilities.Devices.Create.Ephemeral
                   preauthorized := k.Capabilities.Devices.Create.Preauthorized } := by
  simp [GenerateKey, hs, hc, hk]

/-- Witness for C7: the spec scenario — configuration set, upstream returning
`{id:"12345", key:"test"}`, `GenerateKey({})` yielding zero-time expiry,
empty tags and all-false flags. -/
theorem generateKey_response_from_upstream_witness :
    (GenerateKey scenarioEnv [(configPath, scenarioConfig)] {}).1 =
      Outcome.ok { id := "12345", key := "test", expires := 0, tags := [],
                   reusable := false, ephemeral := false, preauthorized := false } :=
  generateKey_response_from_upstream scenarioEnv [(configPath, scenarioConfig)] {}
    scenarioConfig scenarioClient scenarioKey rfl rfl (fun _ _ => rfl)

/-- Claim C8: the upstream client is built with API-key authentication
exactly when `APIKey` is non-empty (and then the OAuth fields are not used at
all), and with the OAuth client-credential triple exactly when `APIKey` is
empty. -/
theorem client_auth_selection (c : Config) (env : Env) (client : Client)
    (h : c.Client env = Except.ok client) :
    (¬ c.APIKey = "" → client.auth = ClientAuth.apiKey c.APIKey) ∧
    (c.APIKey = "" → client.auth =
      ClientAuth.oauthCredentials c.OAuthClientID c.OAuthClientSecret c.OAuthScopes) ∧
    (¬ c.APIKey = "" → ∀ a b sc,
      Config.Client { c with OAuthClientID := a, OAuthClientSecret := b,
                             OAuthScopes := sc } env = c.Client env) := by
  unfold Config.Client at h
  refine ⟨?_, ?_, ?_⟩
  · intro hk
    rw [if_pos hk] at h
    split_ifs at h
    cases h
    rfl
  · intro hk
    rw [if_neg (by simp [hk])] at h
    split_ifs at h
    cases h
    rfl
  · intro hk a b sc
    simp [Config.Client, hk]

/-- Witness for C8: the scenario configuration carries a non-empty API key
and yields an API-key-authenticated client. -/
theorem client_auth_selection_witness :
    scenarioClient.auth = ClientAuth.apiKey "1234" :=
  (client_auth_selection scenarioConfig scenarioEnv scenarioClient rfl).1 (by decide)

/-- Claim C9: validation is exactly the three emptiness checks: a write
succeeds if and only if the defaulted tailnet is non-empty, at least one
credential is non-empty, and the defaulted api_url is non-empty — and on
success the assembled record is stored verbatim under the fixed key.  In
particular a write with only an OAuth client id (no secret, no scopes) and a
malformed non-empty endpoint string succeeds. -/
theorem update_validation_is_exactly_three_checks (s : Storage) (d : ConfigFields) :
    ((UpdateConfiguration s d).1 = Outcome.ok () ↔
      (¬ (requestConfig d).Tailnet = "" ∧
       (¬ (requestConfig d).APIKey = "" ∨ ¬ (requestConfig d).OAuthClientID = "") ∧
       ¬ (requestConfig d).APIUrl = "")) ∧
    ((UpdateConfiguration s d).1 = Outcome.ok () →
      Storage.get (UpdateConfiguration s d).2 configPath = some (requestConfig d)) := by
  constructor
  · rw [updateConfiguration_fst]
    split_ifs with h1 h2 h3 <;> simp_all <;> tauto
  · intro h
    exact updateConfiguration_get_of_ok s d h

/-- Witness for C9: the oauth-only write with empty secret, empty scopes and
a malformed endpoint succeeds and is stored verbatim. -/
theorem update_validation_is_exactly_three_checks_witness :
    (UpdateConfiguration [] oauthOnlyFields).1 = Outcome.ok () ∧
    Storage.get (UpdateConfiguration [] oauthOnlyFields).2 configPath =
      some (requestConfig oauthOnlyFields) := by
  have h := update_validation_is_exactly_three_checks [] oauthOnlyFields
  have hok : (UpdateConfiguration [] oauthOnlyFields).1 = Outcome.ok () :=
    h.1.mpr (by decide)
  exact ⟨hok, h.2 hok⟩

/-- Claim C10: `UpdateConfiguration` and `ReadConfiguration` are
deterministic: two runs on the same storage state and the same request fields
produce the same result and the same final storage. -/
theorem handlers_deterministic (s : Storage) (cd : ConfigFields)
    (r1 r2 : Outcome Unit × Storage) (q1 q2 : Outcome ConfigResponse × Storage)
    (h1 : r1 = UpdateConfiguration s cd) (h2 : r2 = UpdateConfiguration s cd)
    (h3 : q1 = ReadConfiguration s) (h4 : q2 = ReadConfiguration s) :
    r1 = r2 ∧ q1 = q2 :=
  ⟨h1.trans h2.symm, h3.trans h4.symm⟩

/-- Witness for C10: two runs on the empty storage agree. -/
theorem handlers_deterministic_witness :
    UpdateConfiguration [] exampleFields = UpdateConfiguration [] exampleFields ∧
    ReadConfiguration [] = ReadConfiguration [] :=
  handlers_deterministic [] exampleFields _ _ _ _ rfl rfl rfl rfl

end Tailscale
